import Mathlib

/-!
Verification of the GPS_RTC_Clock controller (src/GPS_RTC_Clock.ino).

The sketch is shallowly embedded: each C function that the claims touch
becomes a pure Lean function from its inputs (global variables it reads,
environment samples such as the local time fields, the photocell reading
and the millisecond counter) to the state it writes and the list of draw
calls it issues.  Machine integers on the AVR target (16-bit int and
unsigned int, 8-bit signed char) are modelled as Int and Nat, with an
explicit reduction modulo 2 to the 16 where the source stores a value in
an unsigned int.  The display, RTC device, GPS receiver and light sensor
are external collaborators; their samples appear as plain arguments.
-/

/-- Calendar sample as produced by the RTC (`rtc.now()`) or assembled from
the receiver fields (`gps.date.year()` ... `gps.time.second()`). -/
structure TimeSample where
  year : Nat
  month : Nat
  day : Nat
  hour : Nat
  minute : Nat
  second : Nat
  deriving DecidableEq

/-- Receiver validity flags and satellite count: `gps.date.isValid()`,
`gps.time.isValid()`, `gps.satellites.value()`. -/
structure FixStatus where
  dateValid : Bool
  timeValid : Bool
  satelliteCount : Nat
  deriving DecidableEq

/-- Color constants from Adafruit_ILI9340.h (16-bit RGB565 values). -/
def ILI9340_BLACK : Int := 0x0000

def ILI9340_RED : Int := 0xF800

def ILI9340_WHITE : Int := 0xFFFF

/-- One pixel-level operation issued to the display surface. -/
inductive DrawCall where
  | text (x y sz fg bg : Int) (s : String)
  | hline (x y w col : Int)
  | vline (x y h col : Int)
  | circle (x y r col : Int)
  | seven (n x y cS fg bg nD : Int)
  deriving DecidableEq

/-- `checkRTCset()`: reads the RTC sample and, unless it matches the
implausible-default pattern (hour, minute and second all zero with a
pre-2010 year), sets the `rtcSet` flag; in the default case it leaves the
flag as it was (the source only prints a diagnostic there). -/
def checkRTCset (rtcTime : TimeSample) (rtcSet : Bool) : Bool :=
  if rtcTime.hour = 0 ∧ rtcTime.minute = 0 ∧ rtcTime.second = 0 ∧ rtcTime.year < 2010 then
    rtcSet
  else
    true

/-- Result of one call to `setRTCfromGPS()`: the RTC content afterwards and
whether `rtc.adjust` was invoked. -/
structure RTCWrite where
  rtcTime : TimeSample
  wrote : Bool
  deriving DecidableEq

/-- `setRTCfromGPS()`: writes the RTC from the receiver sample exactly when
both receiver validity flags hold; otherwise it only prints a diagnostic
and leaves the RTC (and every controller variable) untouched. -/
def setRTCfromGPS (fix : FixStatus) (gpsSample rtcTime : TimeSample) : RTCWrite :=
  if fix.dateValid ∧ fix.timeValid then
    { rtcTime := gpsSample, wrote := true }
  else
    { rtcTime := rtcTime, wrote := false }

/-- Result of one call to `syncOnBoot()`: RTC content, the `newboot` flag,
the `syncTimer` rate-limit stamp, and whether `rtc.adjust` was invoked. -/
structure BootOut where
  rtcTime : TimeSample
  newboot : Bool
  syncTimer : Nat
  wrote : Bool
  deriving DecidableEq

/-- `syncOnBoot()`: while `newboot` is set, writes the RTC from the
receiver (via `setRTCfromGPS`) when both validity flags hold and more than
4 satellites are seen, then clears `newboot` and resets `syncTimer`;
otherwise it reports "waiting for fix" at most once per 250 ms. -/
def syncOnBoot (newboot : Bool) (fix : FixStatus) (gpsSample rtcTime : TimeSample)
    (currentMillis syncTimer : Nat) : BootOut :=
  if newboot then
    if fix.dateValid ∧ fix.timeValid ∧ 4 < fix.satelliteCount then
      let w := setRTCfromGPS fix gpsSample rtcTime
      { rtcTime := w.rtcTime, newboot := false, syncTimer := 0, wrote := w.wrote }
    else
      if syncTimer + 250 < currentMillis then
        { rtcTime := rtcTime, newboot := newboot, syncTimer := currentMillis, wrote := false }
      else
        { rtcTime := rtcTime, newboot := newboot, syncTimer := syncTimer, wrote := false }
  else
    { rtcTime := rtcTime, newboot := newboot, syncTimer := syncTimer, wrote := false }

/-- Result of one call to `scheduledSync()`. -/
structure SchedOut where
  rtcTime : TimeSample
  scheduledTimer : Nat
  wrote : Bool
  deriving DecidableEq

/-- `scheduledSync()`: at most once per 60 s of run time, and only when the
local minute is 21, attempts an RTC write from the receiver. -/
def scheduledSync (fix : FixStatus) (gpsSample rtcTime : TimeSample)
    (minuteLocal : Nat) (currentMillis scheduledTimer : Nat) : SchedOut :=
  if scheduledTimer + 60000 < currentMillis then
    if minuteLocal = 21 then
      let w := setRTCfromGPS fix gpsSample rtcTime
      { rtcTime := w.rtcTime, scheduledTimer := currentMillis, wrote := w.wrote }
    else
      { rtcTime := rtcTime, scheduledTimer := currentMillis, wrote := false }
  else
    { rtcTime := rtcTime, scheduledTimer := scheduledTimer, wrote := false }

/-- The synchronization-related globals of the sketch. -/
structure SyncState where
  rtcSet : Bool
  newboot : Bool
  syncTimer : Nat
  scheduledTimer : Nat
  rtcTime : TimeSample
  deriving DecidableEq

/-- Result of one `loop()` iteration restricted to the synchronization
state, with the three possible RTC-write sites distinguished. -/
structure LoopSyncOut where
  state : SyncState
  wroteUnsynced : Bool
  wroteBoot : Bool
  wroteSched : Bool
  deriving DecidableEq

/-- One iteration of `loop()` restricted to the time-synchronization
effects, in source order: the unsynced branch (`setRTCfromGPS` then
`checkRTCset` when `!rtcSet`), then `syncOnBoot()`, then `scheduledSync()`.
The display functions in between touch none of this state.  The no-traffic
halt guard is modelled separately by `noGPSdetected`; this step models the
non-halting path.  The RTC device does not tick between the modelled
reads of a single iteration. -/
def loopSyncStep (fix : FixStatus) (gpsSample : TimeSample)
    (currentMillis minuteLocal : Nat) (s : SyncState) : LoopSyncOut :=
  let r1 := if !s.rtcSet then setRTCfromGPS fix gpsSample s.rtcTime
            else { rtcTime := s.rtcTime, wrote := false }
  let set1 := if !s.rtcSet then checkRTCset r1.rtcTime s.rtcSet else s.rtcSet
  let b := syncOnBoot s.newboot fix gpsSample r1.rtcTime currentMillis s.syncTimer
  let sc := scheduledSync fix gpsSample b.rtcTime minuteLocal currentMillis s.scheduledTimer
  { state := { rtcSet := set1, newboot := b.newboot, syncTimer := b.syncTimer,
               scheduledTimer := sc.scheduledTimer, rtcTime := sc.rtcTime },
    wroteUnsynced := r1.wrote, wroteBoot := b.wrote, wroteSched := sc.wrote }

/-- The fatal no-receiver-traffic guard in `loop()`:
`currentMillis > 5000 && gps.charsProcessed() < 10` halts forever. -/
def noGPSdetected (currentMillis charsProcessed : Nat) : Bool :=
  decide (5000 < currentMillis) && decide (charsProcessed < 10)

/-- `setNumberColor()`: between 20:00 and 05:59 local with a photocell
reading at most 100 the foreground becomes red, otherwise white; on an
actual color transition the `colorChange` holdoff is set to 2.  Returns
the new `(numberColor, colorChange)` pair. -/
def setNumberColor (hourLocal : Nat) (photocellReading : Int)
    (numberColor colorChange : Int) : Int × Int :=
  if (20 ≤ hourLocal ∨ hourLocal < 6) ∧ photocellReading ≤ 100 then
    if numberColor ≠ ILI9340_RED then (ILI9340_RED, 2) else (numberColor, colorChange)
  else
    if numberColor ≠ ILI9340_WHITE then (ILI9340_WHITE, 2) else (numberColor, colorChange)

/-- `setBackLightBrightness()`: the cascading threshold staircase over the
photocell reading; each `if` unconditionally overwrites `backlightVal`. -/
def setBackLightBrightness (photocellReading backlightVal : Int) : Int :=
  let v1 := if 100 < photocellReading then 255 else backlightVal
  let v2 := if photocellReading ≤ 100 then 50 else v1
  let v3 := if photocellReading ≤ 50 then 20 else v2
  let v4 := if photocellReading < 20 then 5 else v3
  v4

/-- The brightness staircase exactly as claim C8 words it: maximum (255)
above 100, 50 on (50,100], 20 on [20,50], 5 below 20.  Stated from the
specification text, to be compared with `setBackLightBrightness`. -/
def brightnessTierClaim (photocellReading : Int) : Int :=
  if 100 < photocellReading then 255
  else if 50 < photocellReading then 50
  else if 20 ≤ photocellReading then 20
  else 5

/-- The weekday-name table, indexed by `weekday(local) - 1`. -/
def daysOfTheWeek : List String :=
  ["  Sunday  ", "  Monday  ", " Tuesday ", "Wednesday", " Thursday ", "  Friday  ", " Saturday "]

/-- `tftDisplayDate()`: when `rtcSet` is still false, prints the waiting
banner; otherwise redraws the weekday and mm/dd/yyyy lines only inside the
five minutes after local midnight, during the first 2.5 s of run time, or
while `colorChange` is positive, decrementing `colorChange` on redraw.
The `rtc.now()` read inside the redraw branch is dead in the source.
Returns the issued draw calls and the new `colorChange`. -/
def tftDisplayDate (rtcSet : Bool) (hourLocal minuteLocal monthLocal dayLocal yearLocal
    weekdayLocal : Nat) (millis : Nat) (numberColor colorChange : Int) :
    List DrawCall × Int :=
  if !rtcSet then
    ([DrawCall.text 65 50 1 numberColor ILI9340_BLACK "Waiting for GPS Fix"], colorChange)
  else
    if (hourLocal = 0 ∧ minuteLocal < 5) ∨ millis < 2500 ∨ 0 < colorChange then
      let dayName := daysOfTheWeek.getD (weekdayLocal - 1) ""
      let daychars : Int := dayName.length
      let xpos0 : Int := 120 - daychars / 2 * 10
      let xpos1 : Int := if xpos0 % 2 ≠ 0 then xpos0 - 5 else xpos0
      let datechars : Int :=
        6 + (if monthLocal < 10 then 1 else 2) + (if dayLocal < 10 then 1 else 2)
      let xpos2 : Int := 120 - datechars / 2 * 15
      let xpos3 : Int := if xpos2 % 2 ≠ 0 then xpos2 - 5 else xpos2
      ([DrawCall.text xpos1 10 2 numberColor ILI9340_BLACK dayName,
        DrawCall.text xpos3 40 3 numberColor ILI9340_BLACK
          (toString monthLocal ++ "/" ++ toString dayLocal ++ "/" ++ toString yearLocal)],
       colorChange - 1)
    else
      ([], colorChange)

/-- `tftDisplayTime()`: when `rtcSet` is still false, prints the waiting
banner; otherwise redraws the two separator dots and the two seven-segment
groups only at second 0, during the first 2.5 s of run time, or while
`colorChange` is positive, decrementing `colorChange` on redraw. -/
def tftDisplayTime (rtcSet : Bool) (secondLocal hour12Local minuteLocal : Nat)
    (millis : Nat) (numberColor colorChange : Int) : List DrawCall × Int :=
  if !rtcSet then
    ([DrawCall.text 30 150 2 numberColor ILI9340_BLACK "Waiting for GPS Fix"], colorChange)
  else
    if secondLocal = 0 ∨ millis < 2500 ∨ 0 < colorChange then
      ([DrawCall.circle 115 150 4 numberColor,
        DrawCall.circle 115 200 4 numberColor,
        DrawCall.seven hour12Local 0 125 5 numberColor ILI9340_BLACK (-2),
        DrawCall.seven minuteLocal 130 125 5 numberColor ILI9340_BLACK 2],
       colorChange - 1)
    else
      ([], colorChange)

/-- Per-cycle environment samples: the millisecond counter and the local
calendar fields obtained through `now()` and the timezone conversion, plus
the photocell reading. -/
structure CycleEnv where
  millis : Nat
  photocellReading : Int
  hourLocal : Nat
  minuteLocal : Nat
  secondLocal : Nat
  monthLocal : Nat
  dayLocal : Nat
  yearLocal : Nat
  weekdayLocal : Nat
  hour12Local : Nat
  deriving DecidableEq

/-- Result of the display part of one `loop()` iteration. -/
structure CycleOut where
  numberColor : Int
  colorChange : Int
  dateDraws : List DrawCall
  timeDraws : List DrawCall
  deriving DecidableEq

/-- The display part of one `loop()` iteration in source order:
`setNumberColor()`, then `tftDisplayDate()`, then `tftDisplayTime()`
(the seconds animation and the satellite-count line touch neither
`numberColor` nor `colorChange`). -/
def displayCycle (e : CycleEnv) (numberColor colorChange : Int) (rtcSet : Bool) : CycleOut :=
  let nc := setNumberColor e.hourLocal e.photocellReading numberColor colorChange
  let d := tftDisplayDate rtcSet e.hourLocal e.minuteLocal e.monthLocal e.dayLocal
             e.yearLocal e.weekdayLocal e.millis nc.1 nc.2
  let t := tftDisplayTime rtcSet e.secondLocal e.hour12Local e.minuteLocal e.millis nc.1 d.2
  { numberColor := nc.1, colorChange := t.2, dateDraws := d.1, timeDraws := t.1 }

/-- Clamping sequence at the head of `draw7Number()`:
`c = abs(x); if (c>10) c=10; if (c<1) c=1;`. -/
def clamp1to10 (x : Int) : Nat :=
  let c := x.natAbs
  let c2 := if 10 < c then 10 else c
  if c2 < 1 then 1 else c2

/-- Segment-activation table `nums` of `draw7Number()`: entries 0-9 are the
digits, entry 10 is blank (no segments), entry 11 is the minus sign
(middle segment only). -/
def nums : List Nat :=
  [0x3F, 0x06, 0x5B, 0x4F, 0x66, 0x6D, 0x7D, 0x07, 0x7F, 0x67, 0x00, 0x40]

/-- Digit-selection loop of `draw7Number()`: one glyph index per remaining
place, least-significant position first (the rendering walks right to
left).  `n` is the original signed argument, `nD` the signed digit-count
argument, `num` the remaining magnitude. -/
def draw7glyphAux (n nD : Int) : Nat → Nat → List Nat
  | 0, _ => []
  | cnt + 1, num =>
      let i := if 9 < num then num % 10
               else if cnt = 0 ∧ n < 0 then 11
               else if nD < 0 ∧ num = 0 then 10
               else num
      i :: draw7glyphAux n nD cnt (num / 10)

/-- Glyph sequence rendered by `draw7Number(n, ..., nD)` in rendering
order (least-significant position first); the clamped magnitude of `nD`
fixes the number of places and `abs(n)` seeds the division chain. -/
def draw7glyphs (n nD : Int) : List Nat :=
  draw7glyphAux n nD (clamp1to10 nD) n.natAbs

/-- Reduction of an int expression stored into an AVR 16-bit unsigned int. -/
def u16 (x : Int) : Nat := (x % 65536).toNat

/-- `S2 = 5 * cS` of `draw7Number()` (width of horizontal segments),
computed from the raw `cS` argument before any clamping. -/
def draw7S2 (cS : Int) : Nat := u16 (5 * cS)

/-- `S3 = 2 * cS` of `draw7Number()` (segment thickness), computed from the
raw `cS` argument before any clamping. -/
def draw7S3 (cS : Int) : Nat := u16 (2 * cS)

/-- The digit pitch `d = S2 + (3 * S3) + 2` of `draw7Number()`, the
unsigned-int distance between successive digit cells. -/
def draw7pitch (cS : Int) : Nat := (draw7S2 cS + 3 * draw7S3 cS + 2) % 65536

/-! ## Theorems -/

/-- Helper: the digit-selection loop emits exactly one glyph per place. -/
theorem draw7glyphAux_length (n nD : Int) :
    ∀ cnt num, (draw7glyphAux n nD cnt num).length = cnt := by
  intro cnt
  induction cnt with
  | zero => intro num; rfl
  | succ k ih => intro num; simp [draw7glyphAux, ih]

/-- C4: the seven-segment digit selection renders, most-significant place
first, blank-blank-7 for value 7 with digitCount -3, 0-0-7 for value 7
with digitCount 3, and minus-4-2 for value -42 with digitCount -3 (glyph
index 10 is blank, index 11 the minus sign, as the segment table shows). -/
theorem claim_C4_digit_glyphs :
    (draw7glyphs 7 (-3)).reverse = [10, 10, 7] ∧
    (draw7glyphs 7 3).reverse = [0, 0, 7] ∧
    (draw7glyphs (-42) (-3)).reverse = [11, 4, 2] ∧
    nums.getD 10 0 = 0x00 ∧ nums.getD 11 0 = 0x40 ∧ nums.getD 7 0 = 0x07 := by
  decide

/-- C8: for every photocell reading the cascading brightness staircase
agrees with the tier map stated in the claim, independent of the previous
backlight value, and the sample readings 5, 30, 60, 150 and the boundary
readings 20, 50, 100 land on the claimed tiers. -/
theorem claim_C8_brightness_staircase (r b : Int) :
    setBackLightBrightness r b = brightnessTierClaim r ∧
    setBackLightBrightness 5 b = 5 ∧ setBackLightBrightness 30 b = 20 ∧
    setBackLightBrightness 60 b = 50 ∧ setBackLightBrightness 150 b = 255 ∧
    setBackLightBrightness 20 b = 20 ∧ setBackLightBrightness 50 b = 20 ∧
    setBackLightBrightness 100 b = 50 := by
  refine ⟨?_, ?_, ?_, ?_, ?_, ?_, ?_, ?_⟩ <;>
    simp only [setBackLightBrightness, brightnessTierClaim] <;>
    split_ifs <;> omega

/-- C9: starting from the unset boot flag, the RTC validation leaves the
state Unsynced exactly when the sample matches the implausible-default
pattern (hour, minute, second all zero and year before 2010), and resolves
to Synced for every other sample. -/
theorem claim_C9_boot_validation (t : TimeSample) :
    checkRTCset t false = false ↔
      (t.hour = 0 ∧ t.minute = 0 ∧ t.second = 0 ∧ t.year < 2010) := by
  unfold checkRTCset
  split_ifs with h <;> simp_all

/-- Witness for C9 at the RTC-default sample 2000-01-01 00:00:00. -/
theorem claim_C9_boot_validation_witness :
    checkRTCset ⟨2000, 1, 1, 0, 0, 0⟩ false = false :=
  (claim_C9_boot_validation ⟨2000, 1, 1, 0, 0, 0⟩).mpr (by decide)

/-- C2: one invocation of the RTC-write routine performs the device write
exactly when both receiver validity flags are true; when it does not
write, the RTC content is unchanged, and when it writes, the RTC holds the
receiver sample.  The routine reads and writes no controller variable in
the source, which the embedding reflects by returning only the RTC
content and the write indicator. -/
theorem claim_C2_rtc_write_iff (fix : FixStatus) (g rtc : TimeSample) :
    ((setRTCfromGPS fix g rtc).wrote = true ↔
      (fix.dateValid = true ∧ fix.timeValid = true)) ∧
    ((setRTCfromGPS fix g rtc).wrote = false → (setRTCfromGPS fix g rtc).rtcTime = rtc) ∧
    ((setRTCfromGPS fix g rtc).wrote = true → (setRTCfromGPS fix g rtc).rtcTime = g) := by
  unfold setRTCfromGPS
  split_ifs with h <;> simp_all

/-- Witness for C2: with the date flag down the invocation writes nothing
and the RTC keeps its previous content. -/
theorem claim_C2_rtc_write_iff_witness :
    (setRTCfromGPS ⟨false, true, 9⟩ ⟨2020, 1, 2, 3, 4, 5⟩ ⟨2000, 1, 1, 0, 0, 0⟩).rtcTime
      = ⟨2000, 1, 1, 0, 0, 0⟩ :=
  (claim_C2_rtc_write_iff ⟨false, true, 9⟩ ⟨2020, 1, 2, 3, 4, 5⟩ ⟨2000, 1, 1, 0, 0, 0⟩).2.1
    (by decide)

/-- C7 counterexample: at 6000 ms with 5 receiver characters decoded the
guard halts the controller, although a nonzero amount of traffic was
decoded — refuting the claim that any nonzero decoded traffic prevents
the halt (the source threshold is 10 characters, not zero). -/
theorem claim_C7_counterexample :
    noGPSdetected 6000 5 = true ∧ (5 : Nat) ≠ 0 := by
  decide

/-- C7 amended: the controller halts exactly when fewer than 10 receiver
characters have been decoded once more than 5000 ms of run time have
elapsed; 10 or more decoded characters prevent the halt. -/
theorem claim_C7_amended (currentMillis charsProcessed : Nat) :
    noGPSdetected currentMillis charsProcessed = true ↔
      (5000 < currentMillis ∧ charsProcessed < 10) := by
  unfold noGPSdetected
  simp

/-- Witness for C7 at 6000 ms with 9 characters decoded. -/
theorem claim_C7_amended_witness :
    noGPSdetected 6000 9 = true :=
  (claim_C7_amended 6000 9).mpr (by decide)

/-- C5 counterexample: at cellSize 12 the digit pitch computed by the
source is 5*12 + 3*(2*12) + 2 = 134, not the 112 that the claimed
clamped magnitude (10) would give — the clamped copy of cellSize is
computed but never used by the geometry. -/
theorem claim_C5_counterexample :
    draw7pitch 12 = 134 ∧
    5 * clamp1to10 12 + 3 * (2 * clamp1to10 12) + 2 = 112 ∧
    (134 : Nat) ≠ 112 := by
  decide

/-- C5 amended: the number of rendered digit cells equals the clamped
magnitude of digitCount (clamped to [1,10] by absolute value); cellSize is
also reduced to a clamped magnitude but that value is dead — the segment
dimensions and the digit pitch 5*cS + 3*(2*cS) + 2 are derived from the
raw cellSize argument (as 16-bit unsigned arithmetic), so they agree with
the claimed clamped form only when cellSize already lies in [1,10]. -/
theorem claim_C5_amended (n nD cS : Int) (h1 : 1 ≤ cS) (h2 : cS ≤ 10) :
    (draw7glyphs n nD).length = clamp1to10 nD ∧
    draw7pitch cS = (5 * cS + 3 * (2 * cS) + 2).toNat ∧
    draw7S2 cS = (5 * cS).toNat ∧ draw7S3 cS = (2 * cS).toNat := by
  refine ⟨draw7glyphAux_length n nD (clamp1to10 nD) n.natAbs, ?_, ?_, ?_⟩ <;>
    simp only [draw7pitch, draw7S2, draw7S3, u16] <;> omega

/-- Witness for C5 at value 7, digitCount -3, cellSize 5. -/
theorem claim_C5_amended_witness :
    (draw7glyphs 7 (-3)).length = clamp1to10 (-3) ∧
    draw7pitch 5 = ((5 : Int) * 5 + 3 * (2 * 5) + 2).toNat ∧
    draw7S2 5 = ((5 : Int) * 5).toNat ∧ draw7S3 5 = ((2 : Int) * 5).toNat :=
  claim_C5_amended 7 (-3) 5 (by decide) (by decide)

/-- C1: in any cycle that runs with the controller still Unsynced
(`rtcSet` false), the date region and the time region each draw exactly
the waiting banner — no seven-segment group, separator dot, weekday or
date text is issued. -/
theorem claim_C1_unsynced_waiting (e : CycleEnv) (nc cc : Int) :
    (displayCycle e nc cc false).dateDraws =
      [DrawCall.text 65 50 1 (setNumberColor e.hourLocal e.photocellReading nc cc).1
        ILI9340_BLACK "Waiting for GPS Fix"] ∧
    (displayCycle e nc cc false).timeDraws =
      [DrawCall.text 30 150 2 (setNumberColor e.hourLocal e.photocellReading nc cc).1
        ILI9340_BLACK "Waiting for GPS Fix"] := by
  simp [displayCycle, tftDisplayDate, tftDisplayTime]

/-- Helper: a Synced date-region pass leaves the holdoff unchanged or
decremented by one, whichever branch it takes. -/
theorem tftDisplayDate_colorChange_cases (h m mo d y w ms : Nat) (ncol cc : Int) :
    (tftDisplayDate true h m mo d y w ms ncol cc).2 = cc ∨
    (tftDisplayDate true h m mo d y w ms ncol cc).2 = cc - 1 := by
  by_cases hB : (h = 0 ∧ m < 5) ∨ ms < 2500 ∨ 0 < cc
  · right
    unfold tftDisplayDate
    rw [if_neg (by simp), if_pos hB]
  · left
    unfold tftDisplayDate
    rw [if_neg (by simp), if_neg hB]

/-- Helper: a Synced time-region pass away from second 0, past the first
2.5 s, with a non-positive holdoff, draws nothing and keeps the holdoff. -/
theorem tftDisplayTime_idle (s h12 m ms : Nat) (ncol cc : Int)
    (hs : s ≠ 0) (hm : 2500 ≤ ms) (hc : cc ≤ 0) :
    tftDisplayTime true s h12 m ms ncol cc = ([], cc) := by
  have hcond : ¬(s = 0 ∨ ms < 2500 ∨ 0 < cc) := by
    rintro (h1 | h1 | h1)
    · exact hs h1
    · omega
    · omega
  unfold tftDisplayTime
  rw [if_neg (by simp), if_neg hcond]

/-- Helper: a Synced date-region pass with a positive holdoff redraws (a
nonempty draw list) and decrements the holdoff. -/
theorem tftDisplayDate_forced (h m mo d y w ms : Nat) (ncol cc : Int) (hcc : 0 < cc) :
    (tftDisplayDate true h m mo d y w ms ncol cc).1 ≠ [] ∧
    (tftDisplayDate true h m mo d y w ms ncol cc).2 = cc - 1 := by
  constructor
  · unfold tftDisplayDate
    rw [if_neg (by simp), if_pos (Or.inr (Or.inr hcc))]
    simp
  · unfold tftDisplayDate
    rw [if_neg (by simp), if_pos (Or.inr (Or.inr hcc))]

/-- Helper: a Synced time-region pass with a positive holdoff redraws (a
nonempty draw list) and decrements the holdoff. -/
theorem tftDisplayTime_forced (s h12 m ms : Nat) (ncol cc : Int) (hcc : 0 < cc) :
    (tftDisplayTime true s h12 m ms ncol cc).1 ≠ [] ∧
    (tftDisplayTime true s h12 m ms ncol cc).2 = cc - 1 := by
  constructor
  · unfold tftDisplayTime
    rw [if_neg (by simp), if_pos (Or.inr (Or.inr hcc))]
    simp
  · unfold tftDisplayTime
    rw [if_neg (by simp), if_pos (Or.inr (Or.inr hcc))]

/-- Helper: a Synced date-region pass outside the midnight window, past the
first 2.5 s, with a non-positive holdoff, draws nothing. -/
theorem tftDisplayDate_idle (h m mo d y w ms : Nat) (ncol cc : Int)
    (hmid : ¬(h = 0 ∧ m < 5)) (hm : 2500 ≤ ms) (hc : cc ≤ 0) :
    tftDisplayDate true h m mo d y w ms ncol cc = ([], cc) := by
  have hcond : ¬((h = 0 ∧ m < 5) ∨ ms < 2500 ∨ 0 < cc) := by
    rintro (h1 | h1 | h1)
    · exact hmid h1
    · omega
    · omega
  unfold tftDisplayDate
  rw [if_neg (by simp), if_neg hcond]

/-- C10: in a Synced cycle whose color tier does not change and whose
holdoff is expired, with the current second nonzero and at least 2.5 s of
run time elapsed, the time region issues zero draw calls. -/
theorem claim_C10_time_idle (e : CycleEnv) (nc cc : Int)
    (hcol : setNumberColor e.hourLocal e.photocellReading nc cc = (nc, cc))
    (hcc : cc ≤ 0) (hsec : e.secondLocal ≠ 0) (hmil : 2500 ≤ e.millis) :
    (displayCycle e nc cc true).timeDraws = [] := by
  have hd := tftDisplayDate_colorChange_cases e.hourLocal e.minuteLocal e.monthLocal
    e.dayLocal e.yearLocal e.weekdayLocal e.millis nc cc
  simp only [displayCycle, hcol]
  rcases hd with hd | hd <;>
    rw [hd, tftDisplayTime_idle _ _ _ _ _ _ hsec hmil (by omega)]

/-- Witness for C10: a day-time Synced cycle at second 37, 100 s after
start, with the color already white and the holdoff at 0, draws nothing in
the time region. -/
theorem claim_C10_time_idle_witness :
    (displayCycle ⟨100000, 500, 10, 30, 37, 5, 6, 2021, 4, 10⟩ ILI9340_WHITE 0 true).timeDraws
      = [] :=
  claim_C10_time_idle ⟨100000, 500, 10, 30, 37, 5, 6, 2021, 4, 10⟩ ILI9340_WHITE 0
    (by decide) (by decide) (by decide) (by decide)

/-- C6 counterexample: a Synced cycle at local hour 20, light reading 40,
second 37, with white foreground and expired holdoff.  In that transition
cycle the color flips to red, both regions redraw once each, and — because
the date pass and the time pass of the same cycle each decrement the
shared holdoff — the holdoff is already 0 at the end of the cycle; the
following cycle (second 38, color already red) draws nothing in either
region, refuting the claim that the next 2 cycles force-redraw both
regions. -/
theorem claim_C6_counterexample :
    (displayCycle ⟨100000, 40, 20, 30, 37, 5, 6, 2021, 4, 8⟩ ILI9340_WHITE 0 true).numberColor
      = ILI9340_RED ∧
    (displayCycle ⟨100000, 40, 20, 30, 37, 5, 6, 2021, 4, 8⟩ ILI9340_WHITE 0 true).dateDraws
      ≠ [] ∧
    (displayCycle ⟨100000, 40, 20, 30, 37, 5, 6, 2021, 4, 8⟩ ILI9340_WHITE 0 true).colorChange
      = 0 ∧
    displayCycle ⟨100100, 40, 20, 30, 38, 5, 6, 2021, 4, 8⟩ ILI9340_RED 0 true
      = ⟨ILI9340_RED, 0, [], []⟩ := by
  decide

/-- C6 amended: on a color-tier transition to night (local hour in 20..23
or 0..5, reading at most 100, foreground not yet red) in a Synced steady
cycle, the foreground flips to red and the holdoff is set to 2; in that
same cycle both the date and the time region are force-redrawn, and since
each of the two region redraws decrements the shared holdoff by 1, the
holdoff is exhausted (0) by the end of that single cycle, so an identical
following cycle with the red foreground in place draws nothing. -/
theorem claim_C6_amended (e : CycleEnv) (nc cc : Int)
    (hnight : 20 ≤ e.hourLocal ∨ e.hourLocal < 6) (hlight : e.photocellReading ≤ 100)
    (hcol : nc ≠ ILI9340_RED) (hsec : e.secondLocal ≠ 0) (hmil : 2500 ≤ e.millis)
    (hmid : ¬(e.hourLocal = 0 ∧ e.minuteLocal < 5)) :
    setNumberColor e.hourLocal e.photocellReading nc cc = (ILI9340_RED, 2) ∧
    (displayCycle e nc cc true).numberColor = ILI9340_RED ∧
    (displayCycle e nc cc true).colorChange = 0 ∧
    (displayCycle e nc cc true).dateDraws ≠ [] ∧
    (displayCycle e nc cc true).timeDraws ≠ [] ∧
    displayCycle e ILI9340_RED 0 true = ⟨ILI9340_RED, 0, [], []⟩ := by
  have h1 : setNumberColor e.hourLocal e.photocellReading nc cc = (ILI9340_RED, 2) := by
    unfold setNumberColor
    rw [if_pos ⟨hnight, hlight⟩, if_pos hcol]
  have h2 : setNumberColor e.hourLocal e.photocellReading ILI9340_RED 0 = (ILI9340_RED, 0) := by
    unfold setNumberColor
    rw [if_pos ⟨hnight, hlight⟩, if_neg (by simp)]
  have hdf := tftDisplayDate_forced e.hourLocal e.minuteLocal e.monthLocal e.dayLocal
    e.yearLocal e.weekdayLocal e.millis ILI9340_RED 2 (by norm_num)
  have htf := tftDisplayTime_forced e.secondLocal e.hour12Local e.minuteLocal e.millis
    ILI9340_RED (2 - 1) (by norm_num)
  have hdi := tftDisplayDate_idle e.hourLocal e.minuteLocal e.monthLocal e.dayLocal
    e.yearLocal e.weekdayLocal e.millis ILI9340_RED 0 hmid hmil le_rfl
  have hti := tftDisplayTime_idle e.secondLocal e.hour12Local e.minuteLocal e.millis
    ILI9340_RED 0 hsec hmil le_rfl
  refine ⟨h1, ?_, ?_, ?_, ?_, ?_⟩
  · simp only [displayCycle, h1]
  · simp only [displayCycle, h1]
    rw [hdf.2, htf.2]
    norm_num
  · simp only [displayCycle, h1]
    exact hdf.1
  · simp only [displayCycle, h1]
    rw [hdf.2]
    exact htf.1
  · simp only [displayCycle, h2, hdi, hti]

/-- Witness for C6 at local hour 20, reading 40, second 37, 100 s after
start, starting from a white foreground with expired holdoff. -/
theorem claim_C6_amended_witness :
    setNumberColor 20 40 ILI9340_WHITE 0 = (ILI9340_RED, 2) ∧
    (displayCycle ⟨100000, 40, 20, 30, 37, 5, 6, 2021, 4, 8⟩ ILI9340_WHITE 0 true).numberColor
      = ILI9340_RED ∧
    (displayCycle ⟨100000, 40, 20, 30, 37, 5, 6, 2021, 4, 8⟩ ILI9340_WHITE 0 true).colorChange
      = 0 ∧
    (displayCycle ⟨100000, 40, 20, 30, 37, 5, 6, 2021, 4, 8⟩ ILI9340_WHITE 0 true).dateDraws
      ≠ [] ∧
    (displayCycle ⟨100000, 40, 20, 30, 37, 5, 6, 2021, 4, 8⟩ ILI9340_WHITE 0 true).timeDraws
      ≠ [] ∧
    displayCycle ⟨100000, 40, 20, 30, 37, 5, 6, 2021, 4, 8⟩ ILI9340_RED 0 true
      = ⟨ILI9340_RED, 0, [], []⟩ :=
  claim_C6_amended ⟨100000, 40, 20, 30, 37, 5, 6, 2021, 4, 8⟩ ILI9340_WHITE 0
    (by decide) (by decide) (by decide) (by decide) (by decide) (by decide)

/-- C3 counterexample: with the first-boot flag set and the state still
Unsynced, a cycle whose receiver flags are both valid but whose satellite
count is only 3 still writes the RTC — through the unsynced branch at the
top of `loop()`, which calls `setRTCfromGPS()` with no satellite-count
test — refuting the sentence that no boot-time RTC write ever occurs
while the satellite count is 4 or fewer. -/
theorem claim_C3_counterexample :
    (loopSyncStep ⟨true, true, 3⟩ ⟨2020, 5, 6, 7, 8, 9⟩ 1000 30
        ⟨false, true, 0, 0, ⟨2000, 1, 1, 0, 0, 0⟩⟩).wroteUnsynced = true ∧
    (loopSyncStep ⟨true, true, 3⟩ ⟨2020, 5, 6, 7, 8, 9⟩ 1000 30
        ⟨false, true, 0, 0, ⟨2000, 1, 1, 0, 0, 0⟩⟩).state.rtcTime = ⟨2020, 5, 6, 7, 8, 9⟩ ∧
    FixStatus.satelliteCount ⟨true, true, 3⟩ ≤ 4 := by
  decide

/-- C3 amended: with the first-boot flag set, `syncOnBoot()` writes the
RTC from the receiver sample exactly when both validity flags hold and
more than 4 satellites are seen, and then clears the first-boot flag (a
satellite count of 4 or fewer leaves the RTC and the flag untouched in
`syncOnBoot()`); under those conditions, and provided the receiver sample
does not itself match the implausible-default pattern, the full loop
iteration also ends Synced with the receiver sample in the RTC.  The
unsynced branch of `loop()` may however write the RTC on any satellite
count once both validity flags hold, as the counterexample shows. -/
theorem claim_C3_amended (fix : FixStatus) (g rtc : TimeSample) (ms st sch minuteL : Nat)
    (hd : fix.dateValid = true) (ht : fix.timeValid = true) (hs : 4 < fix.satelliteCount)
    (hg : ¬(g.hour = 0 ∧ g.minute = 0 ∧ g.second = 0 ∧ g.year < 2010)) :
    syncOnBoot true fix g rtc ms st = ⟨g, false, 0, true⟩ ∧
    (loopSyncStep fix g ms minuteL ⟨false, true, st, sch, rtc⟩).state.rtcSet = true ∧
    (loopSyncStep fix g ms minuteL ⟨false, true, st, sch, rtc⟩).state.newboot = false ∧
    (loopSyncStep fix g ms minuteL ⟨false, true, st, sch, rtc⟩).state.rtcTime = g ∧
    (∀ fix2 : FixStatus, ∀ g2 rtc2 : TimeSample, ∀ ms2 st2 : Nat,
      (syncOnBoot true fix2 g2 rtc2 ms2 st2).wrote = true →
        fix2.dateValid = true ∧ fix2.timeValid = true ∧ 4 < fix2.satelliteCount) ∧
    (∀ fix2 : FixStatus, ∀ g2 rtc2 : TimeSample, ∀ ms2 st2 : Nat,
      fix2.satelliteCount ≤ 4 →
        (syncOnBoot true fix2 g2 rtc2 ms2 st2).rtcTime = rtc2 ∧
        (syncOnBoot true fix2 g2 rtc2 ms2 st2).newboot = true) := by
  have hw : ∀ r : TimeSample, setRTCfromGPS fix g r = ⟨g, true⟩ := by
    intro r
    unfold setRTCfromGPS
    rw [if_pos ⟨hd, ht⟩]
  have hb : ∀ r : TimeSample, syncOnBoot true fix g r ms st = ⟨g, false, 0, true⟩ := by
    intro r
    unfold syncOnBoot
    rw [if_pos rfl, if_pos ⟨hd, ht, hs⟩, hw r]
  have hc : checkRTCset g false = true := by
    unfold checkRTCset
    rw [if_neg hg]
  have hsc : ∀ tm, (scheduledSync fix g g minuteL ms tm).rtcTime = g := by
    intro tm
    unfold scheduledSync
    split_ifs <;> simp [hw g]
  refine ⟨hb rtc, ?_, ?_, ?_, ?_, ?_⟩
  · simp [loopSyncStep, hw, hc, hb, hsc]
  · simp [loopSyncStep, hw, hc, hb, hsc]
  · simp [loopSyncStep, hw, hc, hb, hsc]
  · intro fix2 g2 rtc2 ms2 st2 hww
    unfold syncOnBoot at hww
    rw [if_pos rfl] at hww
    by_cases hB : fix2.dateValid = true ∧ fix2.timeValid = true ∧ 4 < fix2.satelliteCount
    · exact hB
    · rw [if_neg hB] at hww
      split_ifs at hww
  · intro fix2 g2 rtc2 ms2 st2 h4
    have hB : ¬(fix2.dateValid = true ∧ fix2.timeValid = true ∧ 4 < fix2.satelliteCount) := by
      rintro ⟨-, -, hgt⟩
      omega
    unfold syncOnBoot
    rw [if_pos rfl, if_neg hB]
    split_ifs <;> exact ⟨rfl, rfl⟩

/-- Witness for C3: a valid 7-satellite fix with sample 2021-03-04
05:06:07 makes `syncOnBoot()` write the RTC and clear the first-boot
flag, and the loop iteration ends Synced. -/
theorem claim_C3_amended_witness :
    syncOnBoot true ⟨true, true, 7⟩ ⟨2021, 3, 4, 5, 6, 7⟩ ⟨2000, 1, 1, 0, 0, 0⟩ 1000 0
      = ⟨⟨2021, 3, 4, 5, 6, 7⟩, false, 0, true⟩ ∧
    (loopSyncStep ⟨true, true, 7⟩ ⟨2021, 3, 4, 5, 6, 7⟩ 1000 30
        ⟨false, true, 0, 0, ⟨2000, 1, 1, 0, 0, 0⟩⟩).state.rtcSet = true :=
  ⟨(claim_C3_amended ⟨true, true, 7⟩ ⟨2021, 3, 4, 5, 6, 7⟩ ⟨2000, 1, 1, 0, 0, 0⟩ 1000 0 0 30
      (by decide) (by decide) (by decide) (by decide)).1,
   (claim_C3_amended ⟨true, true, 7⟩ ⟨2021, 3, 4, 5, 6, 7⟩ ⟨2000, 1, 1, 0, 0, 0⟩ 1000 0 0 30
      (by decide) (by decide) (by decide) (by decide)).2.1⟩
